import Mathlib

/-!
Verification of the documentation-build orchestration script `docs/make_docs.py`.

The script is shallowly embedded below: each Python function that the claims
depend on is translated into an executable Lean definition.  Python strings
become `String`, Python lists become `List`, Python dictionaries keyed by
strings become association lists, fallible operations return `Except` or
`Option`, and the stateful notebook-staging routine is modelled by an explicit
event trace.  Python string primitives (`str.split` with an explicit separator,
`str.join`, `str.rstrip`) are given their own structural definitions so that
they compute by kernel reduction.
-/

namespace MakeDocs

/-! ## Python string primitives -/

/-- Splitting a character list at every occurrence of `sep`, keeping empty
groups, exactly as Python `str.split(sep)` does for a one-character
separator. -/
def pySplitAux (sep : Char) : List Char → List (List Char)
  | [] => [[]]
  | c :: cs =>
    match pySplitAux sep cs with
    | [] => [[]]
    | g :: gs => if c = sep then [] :: g :: gs else (c :: g) :: gs

/-- Python `s.split(sep)` for a one-character separator `sep`. -/
def pySplit (s : String) (sep : Char) : List String :=
  (pySplitAux sep s.data).map String.mk

/-- Python `sep.join(parts)`. -/
def pyJoin (sep : String) : List String → String
  | [] => ""
  | [x] => x
  | x :: y :: xs => x ++ sep ++ pyJoin sep (y :: xs)

/-- Python `s.rstrip(c)` for a one-character strip set. -/
def rstripChar (c : Char) (s : String) : String :=
  String.mk ((s.data.reverse.dropWhile (fun d => d = c)).reverse)

/-- Python `sorted(strings)`: stable sort in lexicographic (code-point)
order. -/
def pySorted (l : List String) : List String :=
  l.mergeSort

/-! ## SphinxDocsBuilder._run_sphinx: release version resolution
(make_docs.py lines 263-268).  The Python code is

  version_list = [line.rstrip("\n").split(" ")[1]
                  for line in open("../src/Open3D/version.txt")]
  release_version = ".".join(version_list[:3])

The file is modelled as the list of its lines (as Python file iteration
yields them, trailing newline included).  Indexing `[1]` can raise
`IndexError`, so the extraction of one line's token is an `Option` and the
whole resolution fails if any line of the file lacks a second token. -/

/-- The expression `line.rstrip("\n").split(" ")[1]` applied to one line of
the version file. -/
def secondToken (line : String) : Option String :=
  (pySplit (rstripChar '\n' line) ' ')[1]?

/-- Release-mode version string computed by `SphinxDocsBuilder._run_sphinx`
from the lines of `../src/Open3D/version.txt`. -/
def releaseVersion (fileLines : List String) : Option String :=
  (fileLines.mapM secondToken).map (fun version_list => pyJoin "." (version_list.take 3))

/-! ## JupyterDocsBuilder: notebook model
(make_docs.py lines 315-396). -/

/-- One notebook cell as read by `nbformat.read`: its type, source text,
recorded outputs, and execution count.  Outputs are kept abstract as raw
strings; only their presence matters to the script. -/
structure Cell where
  cell_type : String
  source : String
  outputs : List String
  execution_count : Option Int
deriving DecidableEq, Repr

/-- A parsed notebook: its list of cells. -/
structure Notebook where
  cells : List Cell
deriving DecidableEq, Repr

/-- Python truthiness of `c.get("outputs") or c.get("execution_count")`:
a non-empty output list, or an execution count that is present and
non-zero. -/
def cellTruthyOutput (c : Cell) : Bool :=
  !c.outputs.isEmpty ||
    (match c.execution_count with
     | some n => n ≠ 0
     | none => false)

/-- The expression `any(c.source for c in nb.cells if c.cell_type == "code")`
(line 374). -/
def hasCode (nb : Notebook) : Bool :=
  nb.cells.any (fun c => c.cell_type = "code" && c.source ≠ "")

/-- The expression `any(c.get("outputs") or c.get("execution_count") for c in
nb.cells if c.cell_type == "code")` (lines 375-378). -/
def hasOutput (nb : Notebook) : Bool :=
  nb.cells.any (fun c => c.cell_type = "code" && cellTruthyOutput c)

/-- The decision `execute = (self.execute_notebooks == "auto" and has_code and
not has_output) or self.execute_notebooks == "always"` (lines 379-380). -/
def executeDecision (execute_notebooks : String) (nb : Notebook) : Bool :=
  (execute_notebooks = "auto" && hasCode nb && !hasOutput nb) ||
    execute_notebooks = "always"

/-- Outcome of `ep.preprocess` on a notebook: success with the executed
notebook, or a `CellExecutionError` raised after mutating the in-memory
notebook object to some intermediate state. -/
inductive ExecOutcome where
  | success (result : Notebook)
  | cellError (mutated : Notebook)
deriving DecidableEq, Repr

/-- Processing of one staged notebook by `JupyterDocsBuilder.run`
(lines 368-396), given the in-memory notebook `nb` read from disk, the
outcome of executing it, and whether the `TRAVIS` environment variable is
set.  The result is `Except.error ()` when the `CellExecutionError` is
re-raised, and otherwise `Except.ok w` where `w = some nb1` means the file is
rewritten in place with notebook `nb1` and `w = none` means the file is left
untouched. -/
def processNotebook (execute_notebooks : String) (travisInEnv : Bool)
    (nb : Notebook) (outcome : ExecOutcome) : Except Unit (Option Notebook) :=
  if executeDecision execute_notebooks nb then
    match outcome with
    | .success result => .ok (some result)
    | .cellError mutated =>
      if travisInEnv then .error () else .ok (some mutated)
  else
    .ok none

/-- Builder state constructed by `JupyterDocsBuilder.__init__`
(lines 317-326). -/
structure JupyterDocsBuilder where
  current_file_dir : String
  clean_notebooks : Bool
  execute_notebooks : String
deriving DecidableEq, Repr

/-- The constructor `JupyterDocsBuilder.__init__`: it validates the execution
mode before doing anything else and performs no filesystem operation (its
model needs no filesystem argument at all). -/
def JupyterDocsBuilder.init (current_file_dir : String) (clean_notebooks : Bool)
    (execute_notebooks : String) : Except String JupyterDocsBuilder :=
  if ¬(execute_notebooks = "auto" ∨ execute_notebooks = "always") then
    .error ("Invalid execute option: " ++ execute_notebooks ++ ".")
  else
    .ok ⟨current_file_dir, clean_notebooks, execute_notebooks⟩

/-! ## PyAPIDocsBuilder: reference descriptor files
(make_docs.py lines 49-207). -/

/-- Classification of a module attribute by the `inspect` predicates used by
the script: `isclass`, `isbuiltin`, or neither.  The two predicates are
mutually exclusive in Python, so one field suffices. -/
inductive MemberKind where
  | cls
  | builtin
  | other
deriving DecidableEq, Repr

/-- One enumerated module attribute: its name and its classification. -/
abbrev Member := String × MemberKind

/-- The list comprehension for `class_names` (lines 180-182): names of the
attributes whose value is a class object, in enumeration order. -/
def classNames (members : List Member) : List String :=
  (members.filter (fun m => m.2 = MemberKind.cls)).map Prod.fst

/-- The list comprehension for `function_names` (lines 190-192): names of the
attributes whose value is a builtin callable, in enumeration order. -/
def functionNames (members : List Member) : List String :=
  (members.filter (fun m => m.2 = MemberKind.builtin)).map Prod.fst

/-- The file name `"%s.%s.rst" % (sub_module_full_name, member_name)` used for
both class and function descriptor files (lines 184, 194). -/
def memberDocFileName (sub_module_full_name member_name : String) : String :=
  sub_module_full_name ++ "." ++ member_name ++ ".rst"

/-- The module descriptor file name `sub_module_full_name + ".rst"`
(lines 200-201). -/
def moduleDocFileName (sub_module_full_name : String) : String :=
  sub_module_full_name ++ ".rst"

/-- Content written by `PyAPIDocsBuilder._generate_function_doc`
(lines 101-113). -/
def generate_function_doc (sub_module_full_name function_name : String) : String :=
  let title := sub_module_full_name ++ "." ++ function_name
  title ++ "\n" ++ String.mk (List.replicate title.length '-') ++
    "\n\n" ++ ".. currentmodule:: " ++ sub_module_full_name ++
    "\n\n" ++ ".. autofunction:: " ++ function_name ++ "\n"

/-- Content written by `PyAPIDocsBuilder._generate_class_doc`
(lines 115-129). -/
def generate_class_doc (sub_module_full_name class_name : String) : String :=
  let title := sub_module_full_name ++ "." ++ class_name
  title ++ "\n" ++ String.mk (List.replicate title.length '-') ++
    "\n\n" ++ ".. currentmodule:: " ++ sub_module_full_name ++
    "\n\n" ++ ".. autoclass:: " ++ class_name ++
    "\n    :members:" ++ "\n    :undoc-members:" ++ "\n    :inherited-members:" ++ "\n"

/-- Rendering part of `PyAPIDocsBuilder._generate_sub_module_doc`
(lines 137-169): builds the module descriptor content from the member name
lists exactly in the order given. -/
def generate_sub_module_doc_body (sub_module_full_name : String)
    (class_names function_names : List String) : String :=
  let s0 := sub_module_full_name ++ "\n" ++
    String.mk (List.replicate sub_module_full_name.length '-') ++
    "\n\n" ++ ".. currentmodule:: " ++ sub_module_full_name
  let s1 :=
    if class_names.length > 0 then
      s0 ++ "\n\n**Classes**" ++ "\n\n.. autosummary::" ++ "\n" ++
        String.join (class_names.map (fun class_name => "\n    " ++ class_name)) ++ "\n"
    else s0
  let s2 :=
    if function_names.length > 0 then
      s1 ++ "\n\n**Functions**" ++ "\n\n.. autosummary::" ++ "\n" ++
        String.join (function_names.map (fun function_name => "\n    " ++ function_name)) ++ "\n"
    else s1
  let obj_names := class_names ++ function_names
  if obj_names.length > 0 then
    s2 ++ "\n\n.. toctree::" ++ "\n    :hidden:" ++ "\n" ++
      String.join (obj_names.map (fun obj_name =>
        "\n    " ++ obj_name ++ " <" ++ sub_module_full_name ++ "." ++ obj_name ++ ">")) ++ "\n"
  else s2

/-- `PyAPIDocsBuilder._generate_sub_module_doc` (lines 131-172): sorts the two
name lists (lines 135-136) and renders the module descriptor content. -/
def generate_sub_module_doc (sub_module_full_name : String)
    (class_names function_names : List String) : String :=
  generate_sub_module_doc_body sub_module_full_name
    (pySorted class_names) (pySorted function_names)

/-- `PyAPIDocsBuilder._generate_sub_module_class_function_docs`
(lines 174-207) as the list of `(file name, file content)` writes it performs
for one module, in program order: class files, then function files, then the
module file. -/
def generate_sub_module_class_function_docs (sub_module_full_name : String)
    (members : List Member) : List (String × String) :=
  let class_names := classNames members
  let function_names := functionNames members
  (class_names.map (fun class_name =>
    (memberDocFileName sub_module_full_name class_name,
     generate_class_doc sub_module_full_name class_name))) ++
  (function_names.map (fun function_name =>
    (memberDocFileName sub_module_full_name function_name,
     generate_function_doc sub_module_full_name function_name))) ++
  [(moduleDocFileName sub_module_full_name,
    generate_sub_module_doc sub_module_full_name class_names function_names)]

/-- The names of the files written for one module. -/
def generatedFileNames (sub_module_full_name : String) (members : List Member) :
    List String :=
  (generate_sub_module_class_function_docs sub_module_full_name members).map Prod.fst

/-! ## Module resolution
(`PyAPIDocsBuilder._get_open3d_module`, make_docs.py lines 82-99). -/

/-- A Python object as far as the script observes it: its `inspect`
classification and its named attributes. -/
inductive PyObj where
  | mk (kind : MemberKind) (attrs : List (String × PyObj))

/-- The `inspect` classification of an object. -/
def PyObj.kind : PyObj → MemberKind
  | .mk k _ => k

/-- The named attributes of an object. -/
def PyObj.attrs : PyObj → List (String × PyObj)
  | .mk _ a => a

/-- Python `getattr` as a partial lookup among an object's attributes. -/
def lookupAttr (o : PyObj) (name : String) : Option PyObj :=
  o.attrs.lookup name

/-- Python `getattr(current_module, sub_module_name)` (line 98): raises
`AttributeError` (modelled as `Except.error` carrying the missing name) when
the attribute is absent. -/
def getattrE (current_module : PyObj) (sub_module_name : String) :
    Except String PyObj :=
  match lookupAttr current_module sub_module_name with
  | some v => .ok v
  | none => .error sub_module_name

/-- `inspect.getmembers(sub_module)` restricted to what the script uses: the
attribute names sorted lexicographically, each paired with its `inspect`
classification. -/
def getmembersK (o : PyObj) : List Member :=
  (o.attrs.map (fun p => (p.1, p.2.kind))).mergeSort
    (fun a b => a.1 ≤ b.1)

/-- `PyAPIDocsBuilder._get_open3d_module` (lines 82-99): direct import when
the module is importable (`importlib.import_module`), otherwise attribute
traversal from the root `open3d` module over every dotted segment except the
first (`full_module_name.split(".")[1:]`). -/
def get_open3d_module (imports : String → Option PyObj) (open3d : PyObj)
    (full_module_name : String) : Except String PyObj :=
  match imports full_module_name with
  | some module => .ok module
  | none =>
    (pySplit full_module_name '.').tail.foldlM
      (fun current_module sub_module_name => getattrE current_module sub_module_name)
      open3d

/-! ## generate_rst and the output directory
(`PyAPIDocsBuilder.generate_rst` lines 74-80, `_create_or_clear_dir`
lines 49-54).  The output directory is modelled as an association list from
file name to file content, in creation order. -/

/-- The state of the output directory. -/
abbrev FileSystem := List (String × String)

/-- A single `open(path, "w")` write: overwrite an existing file, or append a
new one. -/
def writeFileFs (fs : FileSystem) (name content : String) : FileSystem :=
  if fs.any (fun p => p.1 = name) then
    fs.map (fun p => if p.1 = name then (name, content) else p)
  else
    fs ++ [(name, content)]

/-- Performing a list of writes in order. -/
def writeFilesFs (fs : FileSystem) (files : List (String × String)) : FileSystem :=
  files.foldl (fun acc p => writeFileFs acc p.1 p.2) fs

/-- `_create_or_clear_dir` (lines 49-54): whatever the directory held, it is
removed and recreated empty. -/
def create_or_clear_dir (_fs : FileSystem) : FileSystem := []

/-- The importable-module table and the root `open3d` module object that
resolution runs against. -/
structure PyEnv where
  imports : String → Option PyObj
  open3d : PyObj

/-- Resolution of one module name against the environment. -/
def resolveModule (env : PyEnv) (full_module_name : String) : Except String PyObj :=
  get_open3d_module env.imports env.open3d full_module_name

/-- The loop body of `generate_rst` (lines 77-80): process module names in
order; an unresolvable name raises (second component `some e`) and stops the
loop, leaving the files written so far. -/
def generateRstLoop (env : PyEnv) : FileSystem → List String →
    FileSystem × Option String
  | fs, [] => (fs, none)
  | fs, module_name :: rest =>
    match resolveModule env module_name with
    | .error e => (fs, some e)
    | .ok module =>
      generateRstLoop env
        (writeFilesFs fs
          (generate_sub_module_class_function_docs module_name (getmembersK module)))
        rest

/-- `PyAPIDocsBuilder.generate_rst` (lines 74-80) as a transformer of the
output-directory state: clear the directory, then emit every module's files;
the second component holds the uncaught lookup error, if any. -/
def generate_rst (env : PyEnv) (module_names : List String) (fs : FileSystem) :
    FileSystem × Option String :=
  generateRstLoop env (create_or_clear_dir fs) module_names

/-! ## JupyterDocsBuilder.run as an event trace
(make_docs.py lines 328-396).  Every observable side effect of `run` is one
trace event; the inputs that the filesystem and the notebook executor feed
back into the script are collected in `RunConfig`. -/

/-- One observable side effect of `JupyterDocsBuilder.run`. -/
inductive Event where
  | setEnv (key value : String)
  | removeTree (path : String)
  | copyTree (src dst : String)
  | copyFile (src dst : String)
  | deleteFile (path : String)
  | readNb (path : String)
  | execNb (path : String)
  | writeNb (path : String)
  | raised
deriving DecidableEq, Repr

/-- One notebook found in an example source directory: its file name, whether
a copy already exists in the output directory at copy time, the content read
back at execution time, and whether in-process execution raises a
`CellExecutionError`. -/
structure NbFile where
  name : String
  outExists : Bool
  content : Notebook
  execFails : Bool
deriving DecidableEq, Repr

/-- One example category directory (the script stages `Basic` and
`Advanced`): its name, the stale notebook copies present in the output
directory, and the notebooks found in the source directory. -/
structure ExampleDir where
  dirName : String
  staleOut : List String
  inNbs : List NbFile
deriving DecidableEq, Repr

/-- Everything `JupyterDocsBuilder.run` reads from its surroundings. -/
structure RunConfig where
  current_file_dir : String
  clean_notebooks : Bool
  execute_notebooks : String
  travisInEnv : Bool
  testDataOutExists : Bool
  dirs : List ExampleDir
deriving Repr

/-- The input path `in_dir` of an example directory (lines 345-346). -/
def inDirPath (cfg : RunConfig) (d : ExampleDir) : String :=
  cfg.current_file_dir ++ "/../examples/Python/" ++ d.dirName

/-- The output path `out_dir` of an example directory (line 347). -/
def outDirPath (cfg : RunConfig) (d : ExampleDir) : String :=
  cfg.current_file_dir ++ "/tutorial/" ++ d.dirName

/-- Events of the staging loop for one example directory (lines 344-365):
copy the shared helper script, optionally delete stale notebook copies, then
copy every source notebook that has no existing copy. -/
def stageDirEvents (cfg : RunConfig) (d : ExampleDir) : List Event :=
  Event.copyFile (cfg.current_file_dir ++ "/../examples/Python/open3d_tutorial.py")
      (cfg.current_file_dir ++ "/tutorial/open3d_tutorial.py") ::
  ((if cfg.clean_notebooks then
      d.staleOut.map (fun nb_out_name =>
        Event.deleteFile (outDirPath cfg d ++ "/" ++ nb_out_name))
    else []) ++
   d.inNbs.filterMap (fun nb =>
     if nb.outExists then none
     else some (Event.copyFile (inDirPath cfg d ++ "/" ++ nb.name)
       (outDirPath cfg d ++ "/" ++ nb.name))))

/-- The `nb_paths` entries contributed by one example directory
(lines 358-365): every source notebook's output path, whether or not the copy
was skipped. -/
def nbPathsOf (cfg : RunConfig) (d : ExampleDir) : List (String × NbFile) :=
  d.inNbs.map (fun nb => (outDirPath cfg d ++ "/" ++ nb.name, nb))

/-- Events of the execution loop (lines 368-396): read each staged notebook,
decide whether to execute it, execute, and rewrite it in place; a
`CellExecutionError` is re-raised (ending the run) exactly when `TRAVIS` is in
the environment, and otherwise the rewrite still happens. -/
def execEvents (cfg : RunConfig) : List (String × NbFile) → List Event
  | [] => []
  | (nb_path, nb) :: rest =>
    Event.readNb nb_path ::
    (if executeDecision cfg.execute_notebooks nb.content then
      Event.execNb nb_path ::
      (if nb.execFails then
        (if cfg.travisInEnv then [Event.raised]
         else Event.writeNb nb_path :: execEvents cfg rest)
      else Event.writeNb nb_path :: execEvents cfg rest)
    else execEvents cfg rest)

/-- The trace of `JupyterDocsBuilder.run` after its very first statement. -/
def runTraceTail (cfg : RunConfig) : List Event :=
  (if cfg.testDataOutExists then
      [Event.removeTree (cfg.current_file_dir ++ "/TestData")]
    else []) ++
  [Event.copyTree (cfg.current_file_dir ++ "/../examples/TestData")
    (cfg.current_file_dir ++ "/TestData")] ++
  (cfg.dirs.map (stageDirEvents cfg)).flatten ++
  execEvents cfg (cfg.dirs.map (nbPathsOf cfg)).flatten

/-- The full trace of `JupyterDocsBuilder.run` (lines 328-396): the very
first statement is `os.environ["CI"] = "true"` (line 331). -/
def runTrace (cfg : RunConfig) : List Event :=
  Event.setEnv "CI" "true" :: runTraceTail cfg

/-- Whether an event mutates the process environment. -/
def Event.isSetEnv : Event → Bool
  | .setEnv _ _ => true
  | _ => false

/-- Effect of one event on the process environment. -/
def applyEvent (env : String → Option String) : Event → (String → Option String)
  | .setEnv k v => fun q => if q = k then some v else env q
  | _ => env

/-- Effect of a whole trace on the process environment. -/
def applyEnvTrace (env : String → Option String) (events : List Event) :
    String → Option String :=
  events.foldl applyEvent env

/-! ## Theorems -/

/-- Helper: `List.mapM` over `Option` succeeds when every element maps to
`some`. -/
theorem mapM_isSome_of_forall {α β : Type} (f : α → Option β) :
    ∀ l : List α, (∀ x ∈ l, (f x).isSome) → ∃ ts, l.mapM f = some ts := by
  intro l
  induction l with
  | nil => intro _; exact ⟨[], rfl⟩
  | cons x xs ih =>
    intro h
    obtain ⟨y, hy⟩ := Option.isSome_iff_exists.mp (h x (by simp))
    obtain ⟨ts, hts⟩ := ih (fun a ha => h a (by simp [ha]))
    exact ⟨y :: ts, by rw [List.mapM_cons, hy, hts]; rfl⟩

/-- C1 (counterexample): the release version string is not the first three
dot-joined tokens of the second line of the version file.  For a file whose
second line is `version 1 2 3 extra`, the code resolves `0.1.0` (second
space-token of each of the first three lines), not `1.2.3`. -/
theorem releaseVersion_second_line_counterexample :
    releaseVersion
        ["OPEN3D_VERSION_MAJOR 0\n", "version 1 2 3 extra\n", "OPEN3D_VERSION_PATCH 0\n"]
      = some "0.1.0" ∧
    releaseVersion
        ["OPEN3D_VERSION_MAJOR 0\n", "version 1 2 3 extra\n", "OPEN3D_VERSION_PATCH 0\n"]
      ≠ some "1.2.3" := by
  constructor
  · rfl
  · decide

/-- C1 (amended): in release mode the version string is the dot-join of the
second space-separated token of each of the first three lines of the version
file, provided every line of the file has a second token (the list
comprehension tokenises every line before the first three are kept). -/
theorem releaseVersion_joins_second_tokens_of_first_three_lines
    (l1 l2 l3 : String) (rest : List String) (t1 t2 t3 : String)
    (h1 : secondToken l1 = some t1) (h2 : secondToken l2 = some t2)
    (h3 : secondToken l3 = some t3)
    (hrest : ∀ l ∈ rest, (secondToken l).isSome) :
    releaseVersion (l1 :: l2 :: l3 :: rest) = some (t1 ++ "." ++ t2 ++ "." ++ t3) := by
  obtain ⟨ts, hts⟩ := mapM_isSome_of_forall secondToken rest hrest
  have hmap : (l1 :: l2 :: l3 :: rest).mapM secondToken
      = some (t1 :: t2 :: t3 :: ts) := by
    rw [List.mapM_cons, h1, List.mapM_cons, h2, List.mapM_cons, h3, hts]
    rfl
  unfold releaseVersion
  rw [hmap]
  have htake : List.take 3 (t1 :: t2 :: t3 :: ts) = [t1, t2, t3] := rfl
  simp [htake, pyJoin, String.append_assoc]

/-- C1 (witness): the amended statement evaluated on a concrete version
file. -/
theorem releaseVersion_joins_second_tokens_witness :
    releaseVersion
        ["OPEN3D_VERSION_MAJOR 0", "OPEN3D_VERSION_MINOR 6",
         "OPEN3D_VERSION_PATCH 0", "OPEN3D_VERSION_TWEAK 1"]
      = some ("0" ++ "." ++ "6" ++ "." ++ "0") :=
  releaseVersion_joins_second_tokens_of_first_three_lines
    "OPEN3D_VERSION_MAJOR 0" "OPEN3D_VERSION_MINOR 6" "OPEN3D_VERSION_PATCH 0"
    ["OPEN3D_VERSION_TWEAK 1"] "0" "6" "0"
    (by decide) (by decide) (by decide) (by decide)

/-- C2 (counterexample): a staged notebook whose execution raises a
cell-execution error outside CI is not left unchanged on disk: the rewrite at
lines 395-396 sits outside the `try`/`except`, so the file is rewritten with
the in-memory notebook.  Concretely, in mode `always` with `TRAVIS` unset the
result is a rewrite (`Except.ok (some _)`), not `Except.ok none`. -/
theorem notebook_error_leaves_file_unchanged_counterexample :
    processNotebook "always" false ⟨[⟨"code", "x", [], none⟩]⟩
        (ExecOutcome.cellError ⟨[⟨"code", "x", [], none⟩]⟩)
      = Except.ok (some ⟨[⟨"code", "x", [], none⟩]⟩) ∧
    processNotebook "always" false ⟨[⟨"code", "x", [], none⟩]⟩
        (ExecOutcome.cellError ⟨[⟨"code", "x", [], none⟩]⟩)
      ≠ Except.ok (none : Option Notebook) := by
  refine ⟨rfl, ?_⟩
  intro h
  have h2 : (Except.ok (some (⟨[⟨"code", "x", [], none⟩]⟩ : Notebook)) :
      Except Unit (Option Notebook)) = Except.ok none := h
  exact Option.noConfusion (Except.ok.inj h2)

/-- C2 (amended): for every staged notebook that is executed and raises a
cell-execution error, the error is re-raised exactly when `TRAVIS` is in the
environment; otherwise the error is swallowed and the notebook file is still
rewritten in place with the (partially executed) in-memory notebook. -/
theorem notebook_exec_error_rewrite_and_reraise
    (execute_notebooks : String) (travisInEnv : Bool) (nb mutated : Notebook)
    (hexec : executeDecision execute_notebooks nb = true) :
    processNotebook execute_notebooks travisInEnv nb (ExecOutcome.cellError mutated)
      = if travisInEnv then Except.error () else Except.ok (some mutated) := by
  simp [processNotebook, hexec]

/-- C2 (witness): the amended statement evaluated on a concrete notebook in
both environments. -/
theorem notebook_exec_error_rewrite_and_reraise_witness :
    executeDecision "always" ⟨[⟨"code", "x", [], none⟩]⟩ = true ∧
    processNotebook "always" true ⟨[⟨"code", "x", [], none⟩]⟩
        (ExecOutcome.cellError ⟨[⟨"code", "y", [], none⟩]⟩)
      = if true then Except.error () else Except.ok (some ⟨[⟨"code", "y", [], none⟩]⟩) :=
  ⟨by decide,
   notebook_exec_error_rewrite_and_reraise "always" true
     ⟨[⟨"code", "x", [], none⟩]⟩ ⟨[⟨"code", "y", [], none⟩]⟩ (by decide)⟩

/-- C5: re-running `generate_rst` with the same module list and unchanged
module member sets is idempotent on the output directory: the directory is
cleared up front, so the second run's files (and error outcome) are identical
to the first run's, whatever state the first run left. -/
theorem generate_rst_idempotent (env : PyEnv) (module_names : List String)
    (fs : FileSystem) :
    generate_rst env module_names (generate_rst env module_names fs).1
      = generate_rst env module_names fs := rfl

/-- C6: constructing `JupyterDocsBuilder` with an execution mode outside
`{"auto", "always"}` fails immediately with the configuration error; the
constructor performs no filesystem side effect (its model involves no
filesystem state at all). -/
theorem jupyterInit_rejects_invalid_mode (current_file_dir : String)
    (clean_notebooks : Bool) (execute_notebooks : String)
    (h : execute_notebooks ≠ "auto" ∧ execute_notebooks ≠ "always") :
    JupyterDocsBuilder.init current_file_dir clean_notebooks execute_notebooks
      = Except.error ("Invalid execute option: " ++ execute_notebooks ++ ".") := by
  have hcond : ¬(execute_notebooks = "auto" ∨ execute_notebooks = "always") := by
    rintro (h1 | h2)
    · exact h.1 h1
    · exact h.2 h2
  simp [JupyterDocsBuilder.init, hcond]

/-- C6 (witness): the mode `bogus` is rejected. -/
theorem jupyterInit_rejects_invalid_mode_witness :
    (("bogus" : String) ≠ "auto" ∧ ("bogus" : String) ≠ "always") ∧
    JupyterDocsBuilder.init "docs" false "bogus"
      = Except.error ("Invalid execute option: " ++ "bogus" ++ ".") :=
  ⟨by decide, jupyterInit_rejects_invalid_mode "docs" false "bogus" (by decide)⟩

/-- C7: a staged notebook is executed exactly when the mode is `always`, or
the mode is `auto` and the notebook has a code cell with non-empty source but
no code cell with recorded outputs or an execution count; in particular under
`auto` the decision is `hasCode && !hasOutput`, and under `always` it is
always `true`. -/
theorem executeDecision_spec (execute_notebooks : String) (nb : Notebook) :
    (executeDecision execute_notebooks nb = true ↔
      (execute_notebooks = "always" ∨
        (execute_notebooks = "auto" ∧ hasCode nb = true ∧ hasOutput nb = false))) ∧
    executeDecision "auto" nb = (hasCode nb && !hasOutput nb) ∧
    executeDecision "always" nb = true := by
  refine ⟨?_, ?_, ?_⟩
  · simp [executeDecision, Bool.and_eq_true, Bool.or_eq_true]
    tauto
  · simp [executeDecision]
  · simp [executeDecision]

/-- C4: the class-name group and the function-name group written into the
module descriptor file are each lexicographically sorted, whatever the
enumeration order of the module's attributes: the written content equals the
rendering of a sorted permutation of each input list (and the hidden
navigation tree in the rendering lists exactly those sorted class names
followed by those sorted function names). -/
theorem subModuleDoc_member_groups_sorted (sub_module_full_name : String)
    (class_names function_names : List String) :
    ∃ cs' fs' : List String,
      cs'.Perm class_names ∧ fs'.Perm function_names ∧
      List.Sorted (· ≤ ·) cs' ∧ List.Sorted (· ≤ ·) fs' ∧
      generate_sub_module_doc sub_module_full_name class_names function_names
        = generate_sub_module_doc_body sub_module_full_name cs' fs' :=
  ⟨pySorted class_names, pySorted function_names,
    List.mergeSort_perm _ _, List.mergeSort_perm _ _,
    List.sorted_mergeSort' _, List.sorted_mergeSort' _, rfl⟩

/-- Helper: the member file name determines the member name (string append
is cancellative). -/
theorem memberDocFileName_inj {sub_module_full_name a b : String}
    (h : memberDocFileName sub_module_full_name a
      = memberDocFileName sub_module_full_name b) : a = b := by
  have hd := congrArg String.data h
  simp only [memberDocFileName, String.data_append] at hd
  exact String.ext (List.append_cancel_left (List.append_cancel_right hd))

/-- Helper: the module descriptor file never collides with a member
descriptor file (their lengths differ by the member name plus a dot). -/
theorem moduleDocFileName_ne_memberDocFileName (sub_module_full_name a : String) :
    moduleDocFileName sub_module_full_name
      ≠ memberDocFileName sub_module_full_name a := by
  intro h
  have hd := congrArg (fun s => s.data.length) h
  simp only [moduleDocFileName, memberDocFileName, String.data_append,
    List.length_append, List.length_cons, List.length_nil] at hd
  omega

/-- Helper: the file names written for one module, spelled out. -/
theorem generatedFileNames_eq (sub_module_full_name : String) (members : List Member) :
    generatedFileNames sub_module_full_name members =
      (classNames members).map (memberDocFileName sub_module_full_name) ++
      (functionNames members).map (memberDocFileName sub_module_full_name) ++
      [moduleDocFileName sub_module_full_name] := by
  simp only [generatedFileNames, generate_sub_module_class_function_docs,
    List.map_append, List.map_map]
  rfl

/-- Helper: the names of the members of one kind are distinct when the
attribute names are. -/
theorem kindNames_nodup {members : List Member}
    (hnd : (members.map Prod.fst).Nodup) (k : MemberKind) :
    ((members.filter (fun m => m.2 = k)).map Prod.fst).Nodup :=
  hnd.sublist (List.Sublist.map Prod.fst (List.filter_sublist members))

/-- Helper: members of two different kinds never share a name when the
attribute names are distinct. -/
theorem kindNames_disjoint {members : List Member}
    (hnd : (members.map Prod.fst).Nodup) {k₁ k₂ : MemberKind} (hk : k₁ ≠ k₂) :
    List.Disjoint ((members.filter (fun m => m.2 = k₁)).map Prod.fst)
      ((members.filter (fun m => m.2 = k₂)).map Prod.fst) := by
  intro x hx₁ hx₂
  obtain ⟨p, hp, hpx⟩ := List.mem_map.mp hx₁
  obtain ⟨q, hq, hqx⟩ := List.mem_map.mp hx₂
  obtain ⟨hpmem, hpk⟩ := List.mem_filter.mp hp
  obtain ⟨hqmem, hqk⟩ := List.mem_filter.mp hq
  have hpq : p = q :=
    List.inj_on_of_nodup_map hnd hpmem hqmem (hpx.trans hqx.symm)
  have e₁ : p.2 = k₁ := of_decide_eq_true hpk
  have e₂ : q.2 = k₂ := of_decide_eq_true hqk
  exact hk (by rw [← e₁, hpq, e₂])

/-- The per-module output contract of the Reference Emitter: the file-name
list is duplicate-free, holds exactly one module descriptor file, exactly one
descriptor file for each class attribute and each builtin attribute, and
nothing else. -/
def exactFilesProperty (sub_module_full_name : String) (members : List Member) : Prop :=
  (generatedFileNames sub_module_full_name members).Nodup ∧
  (generatedFileNames sub_module_full_name members).count
      (moduleDocFileName sub_module_full_name) = 1 ∧
  (∀ p ∈ members, p.2 = MemberKind.cls →
    (generatedFileNames sub_module_full_name members).count
        (memberDocFileName sub_module_full_name p.1) = 1) ∧
  (∀ p ∈ members, p.2 = MemberKind.builtin →
    (generatedFileNames sub_module_full_name members).count
        (memberDocFileName sub_module_full_name p.1) = 1) ∧
  (generatedFileNames sub_module_full_name members).length
    = (classNames members).length + (functionNames members).length + 1

/-- C3: for every module whose attribute names are distinct (as Python
attribute enumeration guarantees), `_generate_sub_module_class_function_docs`
writes exactly one module descriptor file, exactly one class descriptor file
per class-valued attribute, and exactly one function descriptor file per
builtin-valued attribute, with no duplicate file names and no omitted
members. -/
theorem refEmitter_exact_files (sub_module_full_name : String)
    (members : List Member) (hnd : (members.map Prod.fst).Nodup) :
    exactFilesProperty sub_module_full_name members := by
  have hcn : (classNames members).Nodup := kindNames_nodup hnd _
  have hfn : (functionNames members).Nodup := kindNames_nodup hnd _
  have hdisj : List.Disjoint (classNames members) (functionNames members) :=
    kindNames_disjoint hnd (by decide)
  have hinj : Function.Injective (memberDocFileName sub_module_full_name) :=
    fun a b h => memberDocFileName_inj h
  have hfiles := generatedFileNames_eq sub_module_full_name members
  have hABdisj : List.Disjoint
      ((classNames members).map (memberDocFileName sub_module_full_name))
      ((functionNames members).map (memberDocFileName sub_module_full_name)) := by
    intro x hx₁ hx₂
    obtain ⟨c, hc, hcx⟩ := List.mem_map.mp hx₁
    obtain ⟨f, hf, hfx⟩ := List.mem_map.mp hx₂
    have : c = f := memberDocFileName_inj (hcx.trans hfx.symm)
    exact hdisj hc (this ▸ hf)
  have hABmod : ∀ x ∈
      (classNames members).map (memberDocFileName sub_module_full_name) ++
      (functionNames members).map (memberDocFileName sub_module_full_name),
      x ≠ moduleDocFileName sub_module_full_name := by
    intro x hx
    rcases List.mem_append.mp hx with hx | hx <;>
    · obtain ⟨c, _, hcx⟩ := List.mem_map.mp hx
      intro he
      exact moduleDocFileName_ne_memberDocFileName sub_module_full_name c
        (by rw [← he, ← hcx])
  have hnodup : (generatedFileNames sub_module_full_name members).Nodup := by
    rw [hfiles]
    refine List.Nodup.append (List.Nodup.append ?_ ?_ hABdisj) ?_ ?_
    · exact hcn.map hinj
    · exact hfn.map hinj
    · exact List.nodup_singleton _
    · intro x hx hxm
      exact hABmod x hx (List.mem_singleton.mp hxm)
  have hmodmem : moduleDocFileName sub_module_full_name
      ∈ generatedFileNames sub_module_full_name members := by
    rw [hfiles]
    simp
  refine ⟨hnodup, List.count_eq_one_of_mem hnodup hmodmem, ?_, ?_, ?_⟩
  · intro p hp hk
    have hmem : memberDocFileName sub_module_full_name p.1
        ∈ generatedFileNames sub_module_full_name members := by
      rw [hfiles]
      refine List.mem_append.mpr (Or.inl (List.mem_append.mpr (Or.inl ?_)))
      exact List.mem_map.mpr
        ⟨p.1, List.mem_map.mpr ⟨p, List.mem_filter.mpr ⟨hp, decide_eq_true hk⟩, rfl⟩, rfl⟩
    exact List.count_eq_one_of_mem hnodup hmem
  · intro p hp hk
    have hmem : memberDocFileName sub_module_full_name p.1
        ∈ generatedFileNames sub_module_full_name members := by
      rw [hfiles]
      refine List.mem_append.mpr (Or.inl (List.mem_append.mpr (Or.inr ?_)))
      exact List.mem_map.mpr
        ⟨p.1, List.mem_map.mpr ⟨p, List.mem_filter.mpr ⟨hp, decide_eq_true hk⟩, rfl⟩, rfl⟩
    exact List.count_eq_one_of_mem hnodup hmem
  · rw [hfiles]
    simp only [List.length_append, List.length_map, List.length_singleton]

/-- C3 (witness): the contract evaluated on a concrete two-member module. -/
theorem refEmitter_exact_files_witness :
    ((([("B", MemberKind.cls), ("a", MemberKind.builtin)] : List Member).map
        Prod.fst).Nodup) ∧
    exactFilesProperty "open3d.camera" [("B", MemberKind.cls), ("a", MemberKind.builtin)] :=
  ⟨by decide,
   refEmitter_exact_files "open3d.camera"
     [("B", MemberKind.cls), ("a", MemberKind.builtin)] (by decide)⟩

/-- Helper: the generate_rst loop processes resolvable names and stops at the
first unresolvable one: the files are those of the prefix, the error is the
lookup error, and the names after the unresolvable one never matter. -/
theorem generateRstLoop_stops_at_error (env : PyEnv) (bad : String)
    (post : List String) {e : String}
    (hbad : resolveModule env bad = Except.error e) :
    ∀ (pre : List String) (fs : FileSystem),
      (∀ n ∈ pre, ∃ m, resolveModule env n = Except.ok m) →
      generateRstLoop env fs (pre ++ bad :: post)
        = ((generateRstLoop env fs pre).1, some e) := by
  intro pre
  induction pre with
  | nil =>
    intro fs _
    simp [generateRstLoop, hbad]
  | cons n ns ih =>
    intro fs h
    obtain ⟨m, hm⟩ := h n (by simp)
    simp only [List.cons_append, generateRstLoop, hm]
    exact ih _ (fun x hx => h x (by simp [hx]))

/-- C8: when a module name list contains an unresolvable name, `generate_rst`
raises the lookup error for it and aborts the whole pass: the run carries an
error, the result is identical whatever names follow the unresolvable one
(they are never processed), and the files written are exactly those of the
resolvable prefix. -/
theorem generate_rst_aborts_on_unresolvable (env : PyEnv) (pre : List String)
    (bad : String) (post : List String) (fs : FileSystem)
    (hpre : ∀ n ∈ pre, ∃ m, resolveModule env n = Except.ok m)
    (hbad : ∃ e, resolveModule env bad = Except.error e) :
    (generate_rst env (pre ++ bad :: post) fs).2.isSome = true ∧
    generate_rst env (pre ++ bad :: post) fs
      = generate_rst env (pre ++ [bad]) fs ∧
    (generate_rst env (pre ++ bad :: post) fs).1
      = (generate_rst env pre fs).1 := by
  obtain ⟨e, he⟩ := hbad
  have h1 := generateRstLoop_stops_at_error env bad post he pre
    (create_or_clear_dir fs) hpre
  have h2 := generateRstLoop_stops_at_error env bad [] he pre
    (create_or_clear_dir fs) hpre
  unfold generate_rst
  refine ⟨?_, ?_, ?_⟩
  · rw [h1]
    rfl
  · rw [h1, h2]
  · rw [h1]

/-- A concrete pybind-style module object for witnesses. -/
def cameraModule : PyObj := PyObj.mk MemberKind.other []

/-- A concrete root `open3d` module object, exposing one attribute
`camera`. -/
def sampleRoot : PyObj := PyObj.mk MemberKind.other [("camera", cameraModule)]

/-- A concrete resolution environment: only `open3d.camera` is directly
importable, and the root module holds a `camera` attribute. -/
def sampleEnv : PyEnv :=
  ⟨fun full_module_name =>
      if full_module_name = "open3d.camera" then some cameraModule else none,
    sampleRoot⟩

/-- C8 (witness): one resolvable module, then an unresolvable one, then a
further name that is never reached. -/
theorem generate_rst_aborts_witness :
    (∀ n ∈ ["open3d.camera"], ∃ m, resolveModule sampleEnv n = Except.ok m) ∧
    (∃ e, resolveModule sampleEnv "open3d.missing" = Except.error e) ∧
    ((generate_rst sampleEnv (["open3d.camera"] ++ "open3d.missing" ::
        ["open3d.geometry"]) []).2.isSome = true ∧
      generate_rst sampleEnv (["open3d.camera"] ++ "open3d.missing" ::
          ["open3d.geometry"]) []
        = generate_rst sampleEnv (["open3d.camera"] ++ ["open3d.missing"]) [] ∧
      (generate_rst sampleEnv (["open3d.camera"] ++ "open3d.missing" ::
          ["open3d.geometry"]) []).1
        = (generate_rst sampleEnv ["open3d.camera"] []).1) := by
  have hpre : ∀ n ∈ ["open3d.camera"], ∃ m, resolveModule sampleEnv n = Except.ok m := by
    intro n hn
    rw [List.mem_singleton] at hn
    subst hn
    exact ⟨cameraModule, rfl⟩
  have hbad : ∃ e, resolveModule sampleEnv "open3d.missing" = Except.error e :=
    ⟨"missing", rfl⟩
  exact ⟨hpre, hbad,
    generate_rst_aborts_on_unresolvable sampleEnv ["open3d.camera"]
      "open3d.missing" ["open3d.geometry"] [] hpre hbad⟩

/-- Helper: the Python-style splitter never returns an empty group list. -/
theorem pySplitAux_ne_nil (sep : Char) : ∀ l : List Char, pySplitAux sep l ≠ [] := by
  intro l
  induction l with
  | nil => simp [pySplitAux]
  | cons c cs ih =>
    cases h : pySplitAux sep cs with
    | nil => exact absurd h ih
    | cons g gs =>
      simp only [pySplitAux, h]
      split <;> simp

/-- Helper: splitting a separator-free character list yields one group. -/
theorem pySplitAux_no_sep (sep : Char) :
    ∀ l : List Char, sep ∉ l → pySplitAux sep l = [l] := by
  intro l
  induction l with
  | nil => intro _; rfl
  | cons c cs ih =>
    intro h
    have hc : ¬(c = sep) := fun hcs => h (by rw [hcs]; exact List.mem_cons_self _ _)
    have hcs : sep ∉ cs := fun hm => h (List.mem_cons_of_mem _ hm)
    simp only [pySplitAux, ih hcs]
    simp [hc]

/-- Helper: splitting around a single separator between two separator-free
parts yields exactly those two parts. -/
theorem pySplitAux_append_sep (sep : Char) :
    ∀ (xs ys : List Char), sep ∉ xs →
      pySplitAux sep (xs ++ sep :: ys) = xs :: pySplitAux sep ys := by
  intro xs ys
  induction xs with
  | nil =>
    intro _
    cases h : pySplitAux sep ys with
    | nil => exact absurd h (pySplitAux_ne_nil sep ys)
    | cons g gs =>
      simp only [List.nil_append, pySplitAux, h]
      simp
  | cons c cs ih =>
    intro h
    have hc : ¬(c = sep) := fun hcs => h (by rw [hcs]; exact List.mem_cons_self _ _)
    have hcs : sep ∉ cs := fun hm => h (List.mem_cons_of_mem _ hm)
    simp only [List.cons_append, pySplitAux, List.append_eq]
    rw [ih hcs]
    simp [hc]

/-- Helper: Python `"X.seg".split(".")` is `["X", "seg"]` when neither part
contains a dot. -/
theorem pySplit_dotted_pair (x seg : String) (hx : ('.' : Char) ∉ x.data)
    (hseg : ('.' : Char) ∉ seg.data) :
    pySplit (x ++ "." ++ seg) '.' = [x, seg] := by
  unfold pySplit
  have hd : (x ++ "." ++ seg).data = x.data ++ '.' :: seg.data := by
    simp [String.data_append, List.append_assoc, List.singleton_append]
  rw [hd, pySplitAux_append_sep '.' x.data seg.data hx,
    pySplitAux_no_sep '.' seg.data hseg]
  rfl

/-- C10: when the direct import of a dotted module name fails, the fallback
traversal unconditionally discards the first dotted segment and walks the
remaining segments from the root module by attribute lookup — the first
segment is never compared with the root module's name, so any name of the
form `X.seg` with unimportable `X` resolves to the root's `seg` attribute. -/
theorem resolution_discards_first_segment (imports : String → Option PyObj)
    (open3d : PyObj) (x seg : String) (m : PyObj)
    (himp : imports (x ++ "." ++ seg) = none)
    (hx : ('.' : Char) ∉ x.data) (hseg : ('.' : Char) ∉ seg.data)
    (hattr : lookupAttr open3d seg = some m) :
    get_open3d_module imports open3d (x ++ "." ++ seg) = Except.ok m := by
  unfold get_open3d_module
  rw [himp, pySplit_dotted_pair x seg hx hseg]
  simp [List.foldlM, getattrE, hattr]

/-- C10 (witness): an unimportable `nonexistent.camera` resolves to the root
module's `camera` attribute. -/
theorem resolution_discards_first_segment_witness :
    ((fun _ : String => (none : Option PyObj)) ("nonexistent" ++ "." ++ "camera")
        = none) ∧
    get_open3d_module (fun _ => none) sampleRoot ("nonexistent" ++ "." ++ "camera")
      = Except.ok cameraModule :=
  ⟨rfl,
   resolution_discards_first_segment (fun _ => none) sampleRoot "nonexistent"
     "camera" cameraModule rfl (by decide) (by decide) rfl⟩

/-- Helper: an event that is not `setEnv` leaves the environment unchanged. -/
theorem applyEvent_not_setEnv (env : String → Option String) (e : Event)
    (he : e.isSetEnv = false) : applyEvent env e = env := by
  cases e <;> first
    | rfl
    | simp [Event.isSetEnv] at he

/-- Helper: a trace without `setEnv` events leaves the environment
unchanged. -/
theorem applyEnvTrace_no_setEnv :
    ∀ l : List Event, (∀ e ∈ l, e.isSetEnv = false) →
      ∀ env : String → Option String, applyEnvTrace env l = env := by
  intro l
  induction l with
  | nil => intro _ env; rfl
  | cons e es ih =>
    intro h env
    have h1 : applyEvent env e = env := applyEvent_not_setEnv env e (h e (by simp))
    show applyEnvTrace (applyEvent env e) es = env
    rw [h1]
    exact ih (fun x hx => h x (by simp [hx])) env

/-- Helper: the staging loop emits only file copies and deletions. -/
theorem stageDirEvents_no_setEnv (cfg : RunConfig) (d : ExampleDir) :
    ∀ e ∈ stageDirEvents cfg d, e.isSetEnv = false := by
  intro e he
  simp only [stageDirEvents, List.mem_cons, List.mem_append] at he
  rcases he with he | he | he
  · subst he; rfl
  · by_cases hcln : cfg.clean_notebooks
    · simp only [hcln, if_true, List.mem_map] at he
      obtain ⟨nm, _, hnm⟩ := he
      subst hnm; rfl
    · simp [hcln] at he
  · obtain ⟨nb, _, hnb⟩ := List.mem_filterMap.mp he
    by_cases hex : nb.outExists
    · simp [hex] at hnb
    · simp [hex] at hnb
      subst hnb; rfl

/-- Helper: the execution loop emits only reads, executions, rewrites, and at
most a final re-raise. -/
theorem execEvents_no_setEnv (cfg : RunConfig) :
    ∀ (l : List (String × NbFile)) (e : Event), e ∈ execEvents cfg l →
      e.isSetEnv = false := by
  intro l
  induction l with
  | nil => intro e he; simp [execEvents] at he
  | cons p rest ih =>
    intro e he
    obtain ⟨nb_path, nb⟩ := p
    simp only [execEvents] at he
    rcases List.mem_cons.mp he with h | h
    · subst h; rfl
    · split at h
      · rcases List.mem_cons.mp h with h2 | h2
        · subst h2; rfl
        · split at h2
          · split at h2
            · rw [List.mem_singleton] at h2
              subst h2; rfl
            · rcases List.mem_cons.mp h2 with h3 | h3
              · subst h3; rfl
              · exact ih e h3
          · rcases List.mem_cons.mp h2 with h3 | h3
            · subst h3; rfl
            · exact ih e h3
      · exact ih e h

/-- Helper: after its first event, the run never touches the environment
again. -/
theorem runTraceTail_no_setEnv (cfg : RunConfig) :
    ∀ e ∈ runTraceTail cfg, e.isSetEnv = false := by
  intro e he
  simp only [runTraceTail, List.mem_append] at he
  rcases he with ((he | he) | he) | he
  · by_cases ht : cfg.testDataOutExists
    · simp only [ht, if_true, List.mem_singleton] at he
      subst he; rfl
    · simp [ht] at he
  · rw [List.mem_singleton] at he
    subst he; rfl
  · obtain ⟨l, hl, hel⟩ := List.mem_flatten.mp he
    obtain ⟨d, _, hd⟩ := List.mem_map.mp hl
    exact stageDirEvents_no_setEnv cfg d e (hd ▸ hel)
  · exact execEvents_no_setEnv cfg _ e he

/-- C9: every invocation of `JupyterDocsBuilder.run` sets the process-wide
environment variable `CI` to `"true"` as its very first observable effect —
before any staging or execution — and never unsets it: no later event of the
run modifies the environment, so whatever environment the process started
with, `CI` is `"true"` after the run and stays so for the rest of the
process (including the subsequent Sphinx build). -/
theorem run_sets_CI_first_and_forever (cfg : RunConfig)
    (env0 : String → Option String) :
    runTrace cfg = Event.setEnv "CI" "true" :: runTraceTail cfg ∧
    (∀ e ∈ runTraceTail cfg, ∀ k v, e ≠ Event.setEnv k v) ∧
    applyEnvTrace env0 (runTrace cfg) "CI" = some "true" := by
  refine ⟨rfl, ?_, ?_⟩
  · intro e he k v heq
    subst heq
    exact absurd (runTraceTail_no_setEnv cfg _ he) (by simp [Event.isSetEnv])
  · show applyEnvTrace (applyEvent env0 (Event.setEnv "CI" "true"))
      (runTraceTail cfg) "CI" = some "true"
    rw [applyEnvTrace_no_setEnv (runTraceTail cfg) (runTraceTail_no_setEnv cfg) _]
    simp [applyEvent]

end MakeDocs
